import Mathlib

/-!
Verification of the Moneytree Raycast extension's authentication core.

The definitions below are a shallow embedding of the TypeScript sources:
`src/lib/auth.ts` (cookie handling, CSRF extraction, the automated login
flow, the token-lifecycle functions) and the token storage module
(`getStoredTokens` / `saveTokens` / `clearTokens` / `isTokenExpired`).
External collaborators (the Raycast `OAuth.PKCEClient`, `LocalStorage`,
the network, the `URL` builtin) are modelled by explicit state values and
oracle parameters; all repository logic is translated directly from the
source.
-/

set_option maxRecDepth 8000

namespace Moneytree

/-- The double-quote character, used by the CSRF-token regexes. -/
def quoteChar : Char := '"'

/-- Whitespace test modelling the JavaScript regex class for spaces
(the ASCII part, which is all this code ever meets). -/
def isJsSpace (c : Char) : Bool :=
  c == ' ' || c == '\t' || c == '\n' || c == '\r' || c == '\x0b' || c == '\x0c'

/-- Word-character test modelling the JavaScript regex word class. -/
def isWordChar (c : Char) : Bool :=
  c.isAlphanum || c == '_'

/-- After at least one word character has been read, scan the rest of the
word run and require the first non-word character to be a literal equals
sign; together with `lookWordEq` this decides the zero-width lookahead
(word characters followed by an equals sign) of the Set-Cookie splitting
regex in `parseCookies`. -/
def lookWordEqAux : List Char → Bool
  | [] => false
  | c :: rest => if isWordChar c then lookWordEqAux rest else c == '='

/-- Decides whether a list of characters starts with one or more word
characters followed by an equals sign (the lookahead of the splitting
regex used by `parseCookies`). -/
def lookWordEq : List Char → Bool
  | [] => false
  | c :: rest => if isWordChar c then lookWordEqAux rest else false

/-- One pass of the Set-Cookie splitting performed by `parseCookies`:
`splitGo skip acc l` walks `l`, cutting a new piece at every comma that is
followed, after optional whitespace, by a word run and an equals sign,
exactly as the JavaScript split on the separator regex
(comma, optional whitespace, lookahead word-run equals) does.  `skip`
records that the characters currently being read belong to the whitespace
of a just-matched separator and are consumed with it. -/
def splitGo : Bool → List Char → List Char → List (List Char)
  | _, acc, [] => [acc.reverse]
  | true, acc, c :: rest =>
    if isJsSpace c then splitGo true acc rest
    else if c == ',' && lookWordEq (rest.dropWhile isJsSpace) then
      acc.reverse :: splitGo true [] rest
    else splitGo false (c :: acc) rest
  | false, acc, c :: rest =>
    if c == ',' && lookWordEq (rest.dropWhile isJsSpace) then
      acc.reverse :: splitGo true [] rest
    else splitGo false (c :: acc) rest

/-- Split a Set-Cookie header into its cookie pieces (see `splitGo`). -/
def splitCookieHeader (l : List Char) : List (List Char) :=
  splitGo false [] l

/-- The trim of JavaScript strings, restricted to `isJsSpace` characters. -/
def trimL (l : List Char) : List Char :=
  ((l.dropWhile isJsSpace).reverse.dropWhile isJsSpace).reverse

/-- The leading match of the anchored nonempty non-semicolon run on one
split piece: the run of characters before the first semicolon, or `none`
when the piece is empty or starts with a semicolon. -/
def leadingPair (piece : List Char) : Option (List Char) :=
  let p := piece.takeWhile (fun c => c != ';')
  if p.isEmpty then none else some p

/-- The join of JavaScript arrays with the separator "; ". -/
def joinSemi : List String → String
  | [] => ""
  | [c] => c
  | c :: cs => c ++ "; " ++ joinSemi cs

/-- `parseCookies` from `src/lib/auth.ts`: splits a Set-Cookie header on
commas that start a new cookie, keeps the name=value part before the first
semicolon of each piece, trims it, and joins the parts with "; ".
A null header yields the empty string. -/
def parseCookies : Option String → String
  | none => ""
  | some h =>
    let pieces := splitCookieHeader h.data
    let cookies := pieces.filterMap (fun p => (leadingPair p).map trimL)
    joinSemi (cookies.map String.mk)

/-- `mergeCookies` from `src/lib/auth.ts`: parses every non-null,
non-empty header and joins the non-empty parse results with "; ".
No deduplication by cookie name takes place anywhere. -/
def mergeCookies (cookieHeaders : List (Option String)) : String :=
  let allCookies := cookieHeaders.filterMap (fun h? =>
    match h? with
    | none => none
    | some h =>
      if h == "" then none
      else
        let cookies := parseCookies (some h)
        if cookies == "" then none else some cookies)
  joinSemi allCookies

example : parseCookies (some "a=1; Path=/; HttpOnly, b=2; Secure") = "a=1; b=2" := by decide

example : mergeCookies [some "a=1", some "a=2, b=1"] = "a=1; a=2; b=1" := by decide

/-- Strip a literal prefix from a character list, returning the remainder
on success. -/
def stripLit : List Char → List Char → Option (List Char)
  | [], s => some s
  | _ :: _, [] => none
  | p :: ps, c :: cs => if p == c then stripLit ps cs else none

/-- One attempted match, anchored at the head of `s`, of the regex shape
used by `extractAuthenticityToken`: a first literal, at least one
whitespace character, a second literal ending in an opening double quote,
then a nonempty capture of non-quote characters closed by a double
quote. -/
def tryMatchAt (lit1 lit2 s : List Char) : Option (List Char) :=
  match stripLit lit1 s with
  | none => none
  | some s1 =>
    if (s1.takeWhile isJsSpace).isEmpty then none
    else
      match stripLit lit2 (s1.dropWhile isJsSpace) with
      | none => none
      | some s3 =>
        let cap := s3.takeWhile (fun c => c != quoteChar)
        if cap.isEmpty then none
        else
          match s3.dropWhile (fun c => c != quoteChar) with
          | [] => none
          | _ :: _ => some cap

/-- Leftmost search for `tryMatchAt`, as the JavaScript match of an
unanchored regex does. -/
def scanMatch (lit1 lit2 : List Char) : List Char → Option (List Char)
  | [] => none
  | c :: rest =>
    match tryMatchAt lit1 lit2 (c :: rest) with
    | some cap => some cap
    | none => scanMatch lit1 lit2 rest

/-- Literal of the form-field branch of `extractAuthenticityToken`. -/
def authTokenNameLit : List Char := "name=\"authenticity_token\"".data

/-- Literal introducing the captured value of the form-field branch. -/
def authTokenValueLit : List Char := "value=\"".data

/-- Literal of the meta-tag branch of `extractAuthenticityToken`. -/
def csrfMetaNameLit : List Char := "name=\"csrf-token\"".data

/-- Literal introducing the captured content of the meta-tag branch. -/
def csrfMetaContentLit : List Char := "content=\"".data

/-- `extractAuthenticityToken` from `src/lib/auth.ts`: the first match of
the hidden-field pattern (literal name attribute for authenticity_token,
whitespace, then a quoted value), else the first match of the meta-tag
pattern (literal name attribute for csrf-token, whitespace, then quoted
content), else `none`. -/
def extractAuthenticityToken (html : String) : Option String :=
  match scanMatch authTokenNameLit authTokenValueLit html.data with
  | some cap => some (String.mk cap)
  | none => (scanMatch csrfMetaNameLit csrfMetaContentLit html.data).map String.mk

example :
    extractAuthenticityToken "<input name=\"authenticity_token\" value=\"abc\" />" =
      some "abc" := by decide

example :
    extractAuthenticityToken "<meta name=\"csrf-token\" content=\"xyz\">" =
      some "xyz" := by decide

example : extractAuthenticityToken "<html></html>" = none := by decide

/-- The token-set record returned by `getStoredTokens` (the `StoredTokens`
shape of the storage module). -/
structure StoredTokens where
  access_token : String
  refresh_token : String
  expires_at : Nat
  code_verifier : Option String
deriving DecidableEq

/-- The `LocalStorage` entries read and written by the storage module,
one optional value per storage key, together with one read-failure flag
per key modelling a `LocalStorage.getItem` call that raises (the storage
module wraps all reads in a try/catch). -/
structure StoreState where
  access : Option String
  refresh : Option String
  expiresAt : Option Nat
  verifier : Option String
  failAccess : Bool
  failRefresh : Bool
  failExpires : Bool
  failVerifier : Bool
deriving DecidableEq

/-- A store with no entries and reliable reads. -/
def emptyStore : StoreState := ⟨none, none, none, none, false, false, false, false⟩

/-- Read of the access-token key; raises (as `Except.error`) when the
corresponding failure flag is set. -/
def readAccess (s : StoreState) : Except Unit (Option String) :=
  if s.failAccess then .error () else .ok s.access

/-- Read of the refresh-token key. -/
def readRefresh (s : StoreState) : Except Unit (Option String) :=
  if s.failRefresh then .error () else .ok s.refresh

/-- Read of the expiry key. -/
def readExpires (s : StoreState) : Except Unit (Option Nat) :=
  if s.failExpires then .error () else .ok s.expiresAt

/-- Read of the code-verifier key. -/
def readVerifier (s : StoreState) : Except Unit (Option String) :=
  if s.failVerifier then .error () else .ok s.verifier

/-- `getStoredTokens` from the storage module: reads the four keys inside
a try/catch (any raising read yields `none`), returns `none` when the
access token, refresh token or expiry is missing or falsy (absent key,
empty string, zero), and maps a falsy stored verifier to an absent
`code_verifier` field. -/
def getStoredTokens (s : StoreState) : Option StoredTokens :=
  match readAccess s, readRefresh s, readExpires s, readVerifier s with
  | .ok accessToken, .ok refreshToken, .ok expiresAtVal, .ok codeVerifier =>
    match accessToken, refreshToken, expiresAtVal with
    | some a, some r, some e =>
      if a == "" || r == "" || e == 0 then none
      else
        some ⟨a, r, e, match codeVerifier with
          | some v => if v == "" then none else some v
          | none => none⟩
    | _, _, _ => none
  | _, _, _, _ => none

/-- `saveTokens` from the storage module: writes the access token, the
refresh token and the derived absolute expiry `(createdAt + expiresIn) *
1000`; the verifier key is written only when a truthy verifier argument is
given (otherwise any previous entry is left in place). -/
def saveTokens (accessToken refreshToken : String) (expiresIn createdAt : Nat)
    (codeVerifier : Option String) (s : StoreState) : StoreState :=
  let expiresAtVal := (createdAt + expiresIn) * 1000
  { s with
    access := some accessToken
    refresh := some refreshToken
    expiresAt := some expiresAtVal
    verifier := match codeVerifier with
      | some v => if v == "" then s.verifier else some v
      | none => s.verifier }

/-- `clearTokens` from the storage module: removes all four keys. -/
def clearTokens (s : StoreState) : StoreState :=
  { s with access := none, refresh := none, expiresAt := none, verifier := none }

/-- `isTokenExpired` from the storage module: the bare comparison of the
current time against the stored expiry (`Date.now() >= expiresAt`), both
in milliseconds.  The current time is passed explicitly. -/
def isTokenExpired (now expiresAt : Nat) : Bool :=
  decide (expiresAt ≤ now)

/-- `isAuthenticated` from `src/lib/auth.ts` reads the stored token set
and reports false when none exists or when the expiry check says the set
is expired.  In `auth.ts` the expiry decision is delegated to the external
Raycast OAuth client object; the repository's own expiry predicate is
`isTokenExpired` of the storage module, so this model instantiates the
check with it, applied to the stored `expires_at`. -/
def isAuthenticatedStored (now : Nat) (s : StoreState) : Bool :=
  match getStoredTokens s with
  | none => false
  | some ts => if isTokenExpired now ts.expires_at then false else true

/-- The token set held by the external Raycast OAuth client, as
`ensureValidToken` observes it: the access token, the optional refresh
token, and the result of the client's `isExpired()` call (computed by the
external library, so carried here as a field). -/
structure ClientTokenSet where
  accessToken : String
  refreshToken : Option String
  expired : Bool
deriving DecidableEq

/-- The token endpoint's JSON response shape. -/
structure OAuthTokenResponse where
  access_token : String
  refresh_token : String
  expires_in : Nat
deriving DecidableEq

/-- The two errors `ensureValidToken` can raise: the no-stored-tokens
error directing the user to the login command, and the refresh-failed
error raised after clearing the stored tokens. -/
inductive AuthError where
  | noTokens
  | refreshFailed
deriving DecidableEq

/-- Calls made on the external token storage, recorded as an effect
trace. -/
inductive StoreEffect where
  | setTokens (accessToken refreshToken : String) (expiresIn : Nat)
  | removeTokens
deriving DecidableEq

/-- `ensureValidToken` from `src/lib/auth.ts`: raise `noTokens` when no
token set is stored; return the stored access token unchanged when the
set is not expired; otherwise attempt a refresh — `refreshResult` gives
the outcome of `refreshAccessToken` (`none` for a non-2xx response or any
raised error) — storing and returning the fresh tokens on success, and on
any failure (including a missing refresh token) removing the stored
tokens and raising `refreshFailed`.  The second component records the
calls made on the token storage. -/
def ensureValidToken (tokens : Option ClientTokenSet)
    (refreshResult : String → Option OAuthTokenResponse) :
    Except AuthError String × List StoreEffect :=
  match tokens with
  | none => (.error .noTokens, [])
  | some ts =>
    if ts.expired then
      match ts.refreshToken with
      | none => (.error .refreshFailed, [.removeTokens])
      | some rt =>
        match refreshResult rt with
        | some r =>
          (.ok r.access_token, [.setTokens r.access_token r.refresh_token r.expires_in])
        | none => (.error .refreshFailed, [.removeTokens])
    else (.ok ts.accessToken, [])

/-- `getAccessToken` from `src/lib/auth.ts`: delegates to
`ensureValidToken`. -/
def getAccessToken (tokens : Option ClientTokenSet)
    (refreshResult : String → Option OAuthTokenResponse) :
    Except AuthError String × List StoreEffect :=
  ensureValidToken tokens refreshResult

/-- The state touched by `logout`: the token set held by the external
OAuth client, the temporary code-verifier entry in `LocalStorage`, and
whether the data cache has been invalidated. -/
structure AuthState where
  clientTokens : Option ClientTokenSet
  tempVerifier : Option String
  cacheCleared : Bool
deriving DecidableEq

/-- `logout` from `src/lib/auth.ts`: remove the client's tokens, remove
the temporary code verifier, clear the cache, wait, then re-read the
client's tokens; if they are still present, remove them once more (the
force clear) and re-read again — the final verification only writes a
debug log, so every path returns `Except.ok`.  The flags `eff1` and
`eff2` model whether the first and second asynchronous removals are
observable at the following read (the code waits 250 ms for exactly this
reason); the Bool in the result records whether the force-clear retry
ran. -/
def logout (eff1 eff2 : Bool) (s : AuthState) : Except String (AuthState × Bool) :=
  let s1 : AuthState := ⟨if eff1 then none else s.clientTokens, none, true⟩
  match s1.clientTokens with
  | none => .ok (s1, false)
  | some _ =>
    let s2 : AuthState := ⟨if eff2 then none else s1.clientTokens, s1.tempVerifier, s1.cacheCleared⟩
    .ok (s2, true)

/-- Does a character list contain the scheme separator of an absolute
URL?  Models the validity test of the JavaScript `URL` constructor, which
throws on a string without a scheme (the try/catch of
`extractCodeFromUrl` turns that throw into `null`). -/
def hasSchemeSep : List Char → Bool
  | ':' :: '/' :: '/' :: _ => true
  | _ :: rest => hasSchemeSep rest
  | [] => false

/-- Split a character list on ampersands (query-parameter separator). -/
def splitAmpGo (acc : List Char) : List Char → List (List Char)
  | [] => [acc.reverse]
  | c :: rest =>
    if c == '&' then acc.reverse :: splitAmpGo [] rest
    else splitAmpGo (c :: acc) rest

/-- One query parameter as a key/value pair: the part before the first
equals sign and the part after it (empty when there is none). -/
def keyValOf (l : List Char) : String × String :=
  (String.mk (l.takeWhile (fun c => c != '=')),
   match l.dropWhile (fun c => c != '=') with
   | [] => ""
   | _ :: v => String.mk v)

/-- `extractCodeFromUrl` from `src/lib/auth.ts`: build a `URL` from the
string (an invalid URL — modelled as one without a scheme separator —
yields `none` through the catch) and return the first value of the `code`
query parameter, or `none` when the URL has no query or no such
parameter.  The model does not percent-decode parameter values; no input
in this development is percent-encoded. -/
def extractCodeFromUrl (url : String) : Option String :=
  if hasSchemeSep url.data then
    match url.data.dropWhile (fun c => c != '?') with
    | [] => none
    | _ :: query =>
      let pairs := (splitAmpGo [] query).map keyValOf
      (pairs.find? (fun kv => kv.1 == "code")).map (fun kv => kv.2)
  else none

example :
    extractCodeFromUrl "https://app.getmoneytree.com/callback?code=AC99&state=s1" =
      some "AC99" := by decide

example : extractCodeFromUrl "no scheme ?code=AC99" = none := by decide

example : extractCodeFromUrl "https://app.getmoneytree.com/callback" = none := by decide

/-- One HTTP response as the login flow observes it: status, body, the
Set-Cookie header and the Location header. -/
structure HttpResponse where
  status : Nat
  body : String
  setCookie : Option String
  location : Option String
deriving DecidableEq

/-- The PKCE parameters produced by the external OAuth client's
`authorizationRequest`. -/
structure AuthRequest where
  codeVerifier : String
  codeChallenge : String
  state : String
deriving DecidableEq

/-- The provider's responses for one login attempt, in step order; the
exchange outcome is `none` for a non-2xx response of the token
endpoint. -/
structure LoginOracle where
  authReq : AuthRequest
  loginPage : HttpResponse
  loginSubmit : HttpResponse
  authorize : HttpResponse
  exchange : Option OAuthTokenResponse
deriving DecidableEq

/-- The network requests of one login attempt, with the data each request
carries (the credentials and cookies travel only here, never into the
persistence trace). -/
inductive ReqTag where
  | getLoginPage
  | postLogin (authenticityToken email password remember cookies : String)
  | getAuthorize (codeChallenge state cookies : String)
  | postTokenExchange (code codeVerifier : String)
deriving DecidableEq

/-- The errors `login` can raise, with the data each message carries. -/
inductive LoginError where
  | loadLoginPageFailed (status : Nat)
  | missingCsrf
  | loginFailed (status : Nat) (bodyTrunc : String)
  | noRedirectLocation
  | missingCode (location : String)
  | exchangeFailed
deriving DecidableEq

/-- The `ok` test of a fetch response: status in the 2xx range. -/
def statusOk (status : Nat) : Bool :=
  decide (200 ≤ status ∧ status < 300)

/-- `login` from `src/lib/auth.ts`, the automated login flow, over the
oracle of provider responses: GET the login page (non-ok status is
fatal), extract the CSRF token from its body (absence is fatal, before
any further request), record the page cookies, POST the credentials with
those cookies (a status other than 302 and 200 is fatal, with the first
200 characters of the body in the error), merge the cookies of the login
response, GET the authorize endpoint with the merged cookies (a missing
Location header is fatal), extract the `code` query parameter from the
Location value (absence is fatal), and exchange the code; on success the
token set of the exchange response is stored.  The result carries the
request trace and the persistence-effect trace. -/
def login (email password : String) (o : LoginOracle) :
    Except LoginError String × List ReqTag × List StoreEffect :=
  let reqs0 : List ReqTag := [.getLoginPage]
  if !(statusOk o.loginPage.status) then
    (.error (.loadLoginPageFailed o.loginPage.status), reqs0, [])
  else
    match extractAuthenticityToken o.loginPage.body with
    | none => (.error .missingCsrf, reqs0, [])
    | some authenticityToken =>
      let loginPageCookies := mergeCookies [o.loginPage.setCookie]
      let reqs1 := reqs0 ++
        [.postLogin authenticityToken email password "1" loginPageCookies]
      let loginCookies := mergeCookies [some loginPageCookies, o.loginSubmit.setCookie]
      if o.loginSubmit.status != 302 && o.loginSubmit.status != 200 then
        (.error (.loginFailed o.loginSubmit.status (o.loginSubmit.body.take 200)), reqs1, [])
      else
        let reqs2 := reqs1 ++
          [.getAuthorize o.authReq.codeChallenge o.authReq.state loginCookies]
        match o.authorize.location with
        | none => (.error .noRedirectLocation, reqs2, [])
        | some location =>
          match extractCodeFromUrl location with
          | none => (.error (.missingCode location), reqs2, [])
          | some code =>
            let reqs3 := reqs2 ++ [.postTokenExchange code o.authReq.codeVerifier]
            match o.exchange with
            | none => (.error .exchangeFailed, reqs3, [])
            | some r =>
              (.ok r.access_token, reqs3,
               [.setTokens r.access_token r.refresh_token r.expires_in])

example :
    login "e@x" "pw"
      ⟨⟨"ver1", "chal1", "st1"⟩,
       ⟨200, "<input name=\"authenticity_token\" value=\"csrf1\">", some "sid=1; Path=/", none⟩,
       ⟨302, "", some "sid=2; Path=/", none⟩,
       ⟨302, "", none, some "https://app.getmoneytree.com/callback?code=AC1&state=st1"⟩,
       some ⟨"fresh", "freshR", 3600⟩⟩ =
      (.ok "fresh",
       [.getLoginPage,
        .postLogin "csrf1" "e@x" "pw" "1" "sid=1",
        .getAuthorize "chal1" "st1" "sid=1; sid=2",
        .postTokenExchange "AC1" "ver1"],
       [.setTokens "fresh" "freshR" 3600]) := rfl

/-- Claim C1, counterexample: a stored token set is expired and every
refresh attempt fails; `getAccessToken` then clears the token store and
raises the refresh-failed error — it does not perform a full re-login and
does not complete with a fresh access token, contrary to the claim. -/
theorem C1_counterexample :
    getAccessToken (some ⟨"oldAccess", some "oldRefresh", true⟩) (fun _ => none) =
      (.error .refreshFailed, [.removeTokens]) := rfl

/-- Claim C1, amended: for every stored token set that is expired, if the
refresh call fails (or no refresh token is present), `getAccessToken`
clears the token store and raises the refresh-failed error directing the
user to log in again; it does not itself perform a re-login. -/
theorem C1_refresh_failure_clears_and_raises (ts : ClientTokenSet)
    (refreshResult : String → Option OAuthTokenResponse)
    (hexp : ts.expired = true)
    (hfail : ∀ rt, ts.refreshToken = some rt → refreshResult rt = none) :
    getAccessToken (some ts) refreshResult = (.error .refreshFailed, [.removeTokens]) := by
  unfold getAccessToken ensureValidToken
  cases hrt : ts.refreshToken with
  | none => simp [hexp, hrt]
  | some rt => simp [hexp, hrt, hfail rt hrt]

/-- Claim C1, witness for the amended theorem at a concrete expired token
set whose refresh is rejected. -/
theorem C1_witness :
    getAccessToken (some ⟨"accW", some "refW", true⟩) (fun _ => none) =
      (.error .refreshFailed, [.removeTokens]) :=
  C1_refresh_failure_clears_and_raises ⟨"accW", some "refW", true⟩ (fun _ => none) rfl
    (fun _ _ => rfl)

/-- Claim C2, counterexample: at time 0 a stored token set expires at
60000 ms, less than 5 minutes (300000 ms) in the future, yet the
authentication check says true — the repository's expiry check
(`isTokenExpired`) has no 5-minute buffer, so the claim's "false when
expires_at is less than 5 minutes in the future" fails. -/
theorem C2_counterexample :
    isAuthenticatedStored 0
        ⟨some "acc", some "ref", some 60000, none, false, false, false, false⟩ = true ∧
      (60000 : Nat) < 5 * 60 * 1000 := by decide

/-- Claim C2, amended: the authentication check is true iff a token set is
stored and the bare comparison `now < expires_at` holds — the expiry
check is exactly `Date.now() >= expires_at` with no safety buffer, so a
set expiring within the next 5 minutes still counts as authenticated. -/
theorem C2_no_expiry_buffer :
    (∀ (now : Nat) (s : StoreState) (ts : StoredTokens), getStoredTokens s = some ts →
      (isAuthenticatedStored now s = true ↔ now < ts.expires_at)) ∧
    (∀ (now : Nat) (s : StoreState), getStoredTokens s = none →
      isAuthenticatedStored now s = false) := by
  constructor
  · intro now s ts h
    unfold isAuthenticatedStored
    rw [h]
    unfold isTokenExpired
    by_cases hc : ts.expires_at ≤ now <;> simp [hc] <;> omega
  · intro now s h
    unfold isAuthenticatedStored
    rw [h]

/-- Claim C2, witness for the amended theorem at a concrete store whose
token set expires at 60000 ms. -/
theorem C2_witness :
    isAuthenticatedStored 0
        ⟨some "accW", some "refW", some 60000, none, false, false, false, false⟩ = true ↔
      (0 : Nat) < 60000 :=
  C2_no_expiry_buffer.1 0
    ⟨some "accW", some "refW", some 60000, none, false, false, false, false⟩
    ⟨"accW", "refW", 60000, none⟩ (by decide)

/-- Claim C5, counterexample: with both token removals unobservable (the
asynchronous store never persists the clear), `logout` on a state holding
tokens re-reads, retries the clear once, and then — with tokens still
present — returns `ok` anyway: the failure is only written to the debug
log, never reported to the caller, contrary to the claim. -/
theorem C5_counterexample :
    logout false false ⟨some ⟨"acc", some "ref", false⟩, some "ver", false⟩ =
      .ok (⟨some ⟨"acc", some "ref", false⟩, none, true⟩, true) := rfl

/-- Claim C5, amended: `logout` clears the token store, removes the
temporary verifier, signals the cache to invalidate, re-reads the store,
and retries the clear exactly when the first clear is not observed and
tokens were present; but whatever the outcome it returns `ok` — tokens
surviving the retry are logged, not raised, so the caller never sees a
failure. -/
theorem C5_logout_never_raises (eff1 eff2 : Bool) (s : AuthState) :
    logout eff1 eff2 s =
      .ok (⟨if eff1 || eff2 then none else s.clientTokens, none, true⟩,
           !eff1 && s.clientTokens.isSome) := by
  obtain ⟨ct, tv, cc⟩ := s
  cases eff1 <;> cases eff2 <;> cases ct <;> rfl

/-- Claim C6, counterexample: with no stored token set, `getAccessToken`
raises the no-tokens error and performs no storage effect — it does not
run the login flow and returns no bearer token, even though the refresh
oracle here could have produced one. -/
theorem C6_counterexample :
    getAccessToken none (fun _ => some ⟨"fresh", "freshR", 3600⟩) =
      (.error .noTokens, []) := rfl

/-- Claim C6, amended: whenever no token set is stored, `getAccessToken`
raises the no-tokens error directing the user to the login command and
touches nothing; the full login flow is a separate command, not run by
`getAccessToken`. -/
theorem C6_no_tokens_raises (refreshResult : String → Option OAuthTokenResponse) :
    getAccessToken none refreshResult = (.error .noTokens, []) := rfl

/-- Claim C8, counterexample: saving a token set whose access token is the
empty string and then loading does not return the saved set — the load's
truthiness test treats the empty string as a missing field and returns
`none`, so the round-trip fails for this token set. -/
theorem C8_counterexample :
    getStoredTokens (saveTokens "" "refresh" 3600 100 none emptyStore) = none := by decide

/-- Claim C8, amended: save followed immediately by load round-trips —
returning the same access token, refresh token, derived absolute expiry
`(createdAt + expiresIn) * 1000` and verifier — provided the access and
refresh tokens are nonempty, the derived expiry is nonzero, the store's
reads succeed, and the verifier argument is nonempty when present (when
absent, the store must hold no stale verifier entry, since save leaves
that key untouched). -/
theorem C8_roundtrip (a r : String) (ei ca : Nat) (cv : Option String) (s : StoreState)
    (ha : a ≠ "") (hr : r ≠ "") (he : ca + ei ≠ 0)
    (hfa : s.failAccess = false) (hfr : s.failRefresh = false)
    (hfe : s.failExpires = false) (hfv : s.failVerifier = false)
    (hcv : match cv with | none => s.verifier = none | some v => v ≠ "") :
    getStoredTokens (saveTokens a r ei ca cv s) = some ⟨a, r, (ca + ei) * 1000, cv⟩ := by
  unfold saveTokens getStoredTokens readAccess readRefresh readExpires readVerifier
  cases cv with
  | none => simp_all [Nat.mul_ne_zero he]
  | some v => simp_all [Nat.mul_ne_zero he]

/-- Claim C8, witness for the amended round-trip at a concrete token
set. -/
theorem C8_witness :
    getStoredTokens (saveTokens "atW" "rtW" 3600 100 (some "verW") emptyStore) =
      some ⟨"atW", "rtW", 3700000, some "verW"⟩ :=
  C8_roundtrip "atW" "rtW" 3600 100 (some "verW") emptyStore (by decide) (by decide)
    (by decide) rfl rfl rfl rfl (by decide)

/-- Claim C9: whenever a required field (access token, refresh token or
expiry) is missing, or any of the four reads raises, `getStoredTokens`
returns `none` — partial or corrupt state is treated as no credentials,
never as an error. -/
theorem C9_load_absent_on_partial_state (s : StoreState)
    (h : s.failAccess = true ∨ s.failRefresh = true ∨ s.failExpires = true ∨
      s.failVerifier = true ∨ s.access = none ∨ s.refresh = none ∨ s.expiresAt = none) :
    getStoredTokens s = none := by
  unfold getStoredTokens readAccess readRefresh readExpires readVerifier
  obtain ⟨ac, rf, ex, ve, fa, fr, fe, fv⟩ := s
  simp only at h ⊢
  cases fa <;> cases fr <;> cases fe <;> cases fv <;> simp_all <;>
    rcases h with h | h | h <;> simp_all

/-- Claim C9, witness: a store whose expiry read raises yields `none`. -/
theorem C9_witness :
    getStoredTokens ⟨some "aW", some "rW", some 1000, none, false, false, true, false⟩ =
      none :=
  C9_load_absent_on_partial_state
    ⟨some "aW", some "rW", some 1000, none, false, false, true, false⟩
    (Or.inr (Or.inr (Or.inl rfl)))

/-- Claim C3, counterexample: merging a header that sets a=1 and then a
header that sets a=2 and b=1 yields the concatenation with both values of
a surviving, not the last-write-wins set the claim describes. -/
theorem C3_counterexample :
    mergeCookies [some "a=1", some "a=2, b=1"] = "a=1; a=2; b=1" ∧
      mergeCookies [some "a=1", some "a=2, b=1"] ≠ "a=2; b=1" := by decide

/-- Claim C3, amended: merging two nonempty headers with nonempty parse
results concatenates their parsed cookie strings in order, separated by
"; " — every name=value pair of both headers is preserved, including a
later pair whose name repeats an earlier one (no deduplication). -/
theorem C3_merge_is_concatenation (h1 h2 : String) (hne1 : h1 ≠ "") (hne2 : h2 ≠ "")
    (hp1 : parseCookies (some h1) ≠ "") (hp2 : parseCookies (some h2) ≠ "") :
    mergeCookies [some h1, some h2] =
      parseCookies (some h1) ++ "; " ++ parseCookies (some h2) := by
  simp [mergeCookies, hne1, hne2, hp1, hp2, joinSemi]

/-- Claim C3, witness for the amended theorem on the claim's own
headers. -/
theorem C3_witness :
    mergeCookies [some "a=1", some "a=2, b=1"] =
      parseCookies (some "a=1") ++ "; " ++ parseCookies (some "a=2, b=1") :=
  C3_merge_is_concatenation "a=1" "a=2, b=1" (by decide) (by decide) (by decide) (by decide)

/-- Claim C4, counterexample: the hidden field carries the value attribute
before the name attribute; the extractor's pattern only recognises the
name-then-value order, so it returns `none` instead of the field's value
SECRET the claim requires. -/
theorem C4_counterexample :
    extractAuthenticityToken
        "<input type=\"hidden\" value=\"SECRET\" name=\"authenticity_token\">" = none := by
  decide

/-- Stripping a literal from itself followed by anything returns the
remainder. -/
theorem stripLit_self_append (p t : List Char) : stripLit p (p ++ t) = some t := by
  induction p with
  | nil => rfl
  | cons c cs ih => simp [stripLit, ih]

/-- The capture run of non-quote characters over a quote-free list
followed by a closing quote is exactly that list. -/
theorem takeWhile_append_quote (v t : List Char) (h : ∀ c ∈ v, c ≠ quoteChar) :
    (v ++ quoteChar :: t).takeWhile (fun c => c != quoteChar) = v := by
  induction v with
  | nil => simp
  | cons a as ih =>
    simp only [List.cons_append, List.takeWhile_cons]
    have ha : (a != quoteChar) = true := bne_iff_ne.mpr (h a (List.mem_cons_self a as))
    rw [ha]
    simp [ih (fun c hc => h c (List.mem_cons_of_mem a hc))]

/-- The remainder after the capture run starts at the closing quote. -/
theorem dropWhile_append_quote (v t : List Char) (h : ∀ c ∈ v, c ≠ quoteChar) :
    (v ++ quoteChar :: t).dropWhile (fun c => c != quoteChar) = quoteChar :: t := by
  induction v with
  | nil => simp
  | cons a as ih =>
    simp only [List.cons_append, List.dropWhile_cons]
    have ha : (a != quoteChar) = true := bne_iff_ne.mpr (h a (List.mem_cons_self a as))
    rw [ha]
    simp [ih (fun c hc => h c (List.mem_cons_of_mem a hc))]

/-- The single space between the two literals is matched by the
whitespace-run test. -/
theorem wsLit_take (Y : List Char) :
    ((' ' :: (authTokenValueLit ++ Y)).takeWhile isJsSpace).isEmpty = false := by
  rw [List.takeWhile_cons]
  simp [show isJsSpace ' ' = true from rfl]

/-- Skipping the whitespace run lands exactly on the value literal. -/
theorem wsLit_drop (Y : List Char) :
    (' ' :: (authTokenValueLit ++ Y)).dropWhile isJsSpace = authTokenValueLit ++ Y := by
  rw [List.dropWhile_cons]
  simp only [show isJsSpace ' ' = true from rfl, if_true]
  rw [show authTokenValueLit ++ Y = 'v' :: ("alue=\"".data ++ Y) from rfl]
  rw [List.dropWhile_cons]
  simp [show isJsSpace 'v' = false from rfl]

/-- An anchored match of the form-field pattern at the head of the
document succeeds and captures the value. -/
theorem tryMatchAt_form (v post : List Char) (hv : v ≠ []) (hq : ∀ c ∈ v, c ≠ quoteChar) :
    tryMatchAt authTokenNameLit authTokenValueLit
      (authTokenNameLit ++ ' ' :: (authTokenValueLit ++ (v ++ quoteChar :: post))) =
      some v := by
  unfold tryMatchAt
  rw [stripLit_self_append]
  simp only [wsLit_take, Bool.false_eq_true, if_false, wsLit_drop, stripLit_self_append]
  rw [takeWhile_append_quote v post hq, dropWhile_append_quote v post hq]
  simp [hv]

/-- A successful anchored match at the head makes the leftmost scan
return it. -/
theorem scanMatch_of_head (lit1 lit2 : List Char) (c : Char) (rest cap : List Char)
    (h : tryMatchAt lit1 lit2 (c :: rest) = some cap) :
    scanMatch lit1 lit2 (c :: rest) = some cap := by
  unfold scanMatch
  rw [h]

/-- Claim C4, amended: the extractor recognises the hidden form field only
with the name attribute before the value attribute — for every nonempty
quote-free value and every suffix, a document headed by that pattern
yields the value (first conjunct, fully general); documents exercising
the name-then-value field deeper in the markup, the meta-tag fallback,
the preference for the form field over the meta tag, and the
neither-pattern case behave as the claim says (remaining conjuncts);
the reversed attribute order is not recognised (see the
counterexample). -/
theorem C4_extractor_fixed_order :
    (∀ v post : List Char, v ≠ [] → (∀ c ∈ v, c ≠ quoteChar) →
      extractAuthenticityToken
        (String.mk (authTokenNameLit ++ ' ' :: (authTokenValueLit ++ (v ++ quoteChar :: post)))) =
        some (String.mk v)) ∧
    extractAuthenticityToken
      "<form><input type=\"hidden\" name=\"authenticity_token\" value=\"TOK1\" /></form>" =
      some "TOK1" ∧
    extractAuthenticityToken "<head><meta name=\"csrf-token\" content=\"TOK2\"></head>" =
      some "TOK2" ∧
    extractAuthenticityToken
      "<meta name=\"csrf-token\" content=\"TOK2\"><input name=\"authenticity_token\" value=\"TOK1\">" =
      some "TOK1" ∧
    extractAuthenticityToken "<html><body>nothing here</body></html>" = none := by
  refine ⟨?_, by decide, by decide, by decide, by decide⟩
  intro v post hv hq
  unfold extractAuthenticityToken
  have hm : scanMatch authTokenNameLit authTokenValueLit
      (String.mk (authTokenNameLit ++ ' ' ::
        (authTokenValueLit ++ (v ++ quoteChar :: post)))).data = some v := by
    show scanMatch authTokenNameLit authTokenValueLit
      (authTokenNameLit ++ ' ' :: (authTokenValueLit ++ (v ++ quoteChar :: post))) = some v
    rw [show authTokenNameLit ++ ' ' :: (authTokenValueLit ++ (v ++ quoteChar :: post)) =
      'n' :: ("ame=\"authenticity_token\"".data ++ ' ' ::
        (authTokenValueLit ++ (v ++ quoteChar :: post))) from rfl]
    apply scanMatch_of_head
    exact tryMatchAt_form v post hv hq
  rw [hm]

/-- Claim C4, witness for the general conjunct at the concrete value
TOK. -/
theorem C4_witness :
    extractAuthenticityToken
      (String.mk (authTokenNameLit ++ ' ' ::
        (authTokenValueLit ++ (['T', 'O', 'K'] ++ quoteChar :: [])))) =
      some (String.mk ['T', 'O', 'K']) :=
  C4_extractor_fixed_order.1 ['T', 'O', 'K'] [] (by decide) (by decide)

/-- Claim C7: whenever the fetched login page is ok but contains no
extractable CSRF token, `login` fails with the missing-artifact error and
its request trace holds only the initial GET — no POST to the
login-submit endpoint is ever made, and nothing is persisted. -/
theorem C7_no_post_without_csrf (email password : String) (o : LoginOracle)
    (hok : statusOk o.loginPage.status = true)
    (hcsrf : extractAuthenticityToken o.loginPage.body = none) :
    login email password o = (.error .missingCsrf, [.getLoginPage], []) := by
  simp [login, hok, hcsrf]

/-- Concrete oracle for the C7 witness: an ok login page whose markup has
no CSRF token in it. -/
def c7Oracle : LoginOracle :=
  ⟨⟨"v7", "c7", "s7"⟩,
   ⟨200, "<html><body>a login form with nothing in it</body></html>", none, none⟩,
   ⟨200, "", none, none⟩, ⟨200, "", none, none⟩, none⟩

/-- Claim C7, witness at the concrete oracle. -/
theorem C7_witness :
    login "mail@x" "pw7" c7Oracle = (.error .missingCsrf, [.getLoginPage], []) :=
  C7_no_post_without_csrf "mail@x" "pw7" c7Oracle (by decide) (by decide)

/-- Shape of every `login` outcome: either it fails and the persistence
trace is empty, or the exchange succeeded and the persistence trace is
exactly the token set of the exchange response. -/
theorem login_shape (email password : String) (o : LoginOracle) :
    (∃ err, (login email password o).1 = .error err ∧ (login email password o).2.2 = []) ∨
    (∃ r, o.exchange = some r ∧ (login email password o).1 = .ok r.access_token ∧
      (login email password o).2.2 =
        [.setTokens r.access_token r.refresh_token r.expires_in]) := by
  by_cases h1 : statusOk o.loginPage.status = true
  · cases h2 : extractAuthenticityToken o.loginPage.body with
    | none => exact Or.inl ⟨.missingCsrf, by simp [login, h1, h2]⟩
    | some tok =>
      by_cases h3 : (o.loginSubmit.status != 302 && o.loginSubmit.status != 200) = true
      · exact Or.inl ⟨.loginFailed o.loginSubmit.status (o.loginSubmit.body.take 200),
          by simp [login, h1, h2, h3]⟩
      · cases h4 : o.authorize.location with
        | none => exact Or.inl ⟨.noRedirectLocation, by simp [login, h1, h2, h3, h4]⟩
        | some loc =>
          cases h5 : extractCodeFromUrl loc with
          | none => exact Or.inl ⟨.missingCode loc, by simp [login, h1, h2, h3, h4, h5]⟩
          | some code =>
            cases h6 : o.exchange with
            | none => exact Or.inl ⟨.exchangeFailed, by simp [login, h1, h2, h3, h4, h5, h6]⟩
            | some r => exact Or.inr ⟨r, rfl, by simp [login, h1, h2, h3, h4, h5, h6]⟩
  · exact Or.inl ⟨.loadLoginPageFailed o.loginPage.status, by simp [login, h1]⟩

/-- The persistence trace of `login` does not depend on the submitted
email and password. -/
theorem login_writes_credential_free (e1 p1 e2 p2 : String) (o : LoginOracle) :
    (login e1 p1 o).2.2 = (login e2 p2 o).2.2 := by
  by_cases h1 : statusOk o.loginPage.status = true
  · cases h2 : extractAuthenticityToken o.loginPage.body with
    | none => simp [login, h1, h2]
    | some tok =>
      by_cases h3 : (o.loginSubmit.status != 302 && o.loginSubmit.status != 200) = true
      · simp [login, h1, h2, h3]
      · cases h4 : o.authorize.location with
        | none => simp [login, h1, h2, h3, h4]
        | some loc =>
          cases h5 : extractCodeFromUrl loc with
          | none => simp [login, h1, h2, h3, h4, h5]
          | some code =>
            cases h6 : o.exchange with
            | none => simp [login, h1, h2, h3, h4, h5, h6]
            | some r => simp [login, h1, h2, h3, h4, h5, h6]
  · simp [login, h1]

/-- Claim C10: a login attempt's only persistent write is the token set of
a successful exchange — on any failure nothing is persisted, on success
exactly the exchange response's access token, refresh token and expiry
are stored, and the persistence trace is independent of the email and
password (the credentials, cookies and verifier travel only in the
request trace, never into storage). -/
theorem C10_login_persists_only_token_set :
    (∀ (email password : String) (o : LoginOracle) (err : LoginError),
      (login email password o).1 = .error err → (login email password o).2.2 = []) ∧
    (∀ (email password : String) (o : LoginOracle) (a : String),
      (login email password o).1 = .ok a →
      ∃ r, o.exchange = some r ∧ a = r.access_token ∧
        (login email password o).2.2 =
          [.setTokens r.access_token r.refresh_token r.expires_in]) ∧
    (∀ (e1 p1 e2 p2 : String) (o : LoginOracle),
      (login e1 p1 o).2.2 = (login e2 p2 o).2.2) := by
  refine ⟨?_, ?_, login_writes_credential_free⟩
  · intro email password o err h
    rcases login_shape email password o with ⟨e, _, hw⟩ | ⟨r, _, hok, _⟩
    · exact hw
    · rw [hok] at h
      simp at h
  · intro email password o a h
    rcases login_shape email password o with ⟨e, herr, _⟩ | ⟨r, hx, hok, hw⟩
    · rw [herr] at h
      simp at h
    · rw [hok] at h
      refine ⟨r, hx, ?_, hw⟩
      injection h with h
      exact h.symm

/-- Concrete oracle for the C10 witness: a full successful login
attempt. -/
def c10Oracle : LoginOracle :=
  ⟨⟨"ver1", "chal1", "st1"⟩,
   ⟨200, "<input name=\"authenticity_token\" value=\"csrf1\">", some "sid=1; Path=/", none⟩,
   ⟨302, "", some "sid=2; Path=/", none⟩,
   ⟨302, "", none, some "https://app.getmoneytree.com/callback?code=AC1&state=st1"⟩,
   some ⟨"fresh", "freshR", 3600⟩⟩

/-- Claim C10, witness at the concrete successful oracle. -/
theorem C10_witness :
    ∃ r, c10Oracle.exchange = some r ∧ "fresh" = r.access_token ∧
      (login "e@x" "pw" c10Oracle).2.2 =
        [.setTokens r.access_token r.refresh_token r.expires_in] :=
  C10_login_persists_only_token_set.2.1 "e@x" "pw" c10Oracle "fresh" rfl

end Moneytree
